import Mathlib

/-!
Shallow embedding of `src/main.py`, a FastAPI service that extracts text
from an uploaded `.txt` / `.docx` / `.pdf` file (or takes a raw prompt),
forwards it to an upstream chat-completion API, and returns the summary.

Python strings are modelled by Lean `String`, with the Python string
operations the code uses (`lower`, `strip`, `endswith`, `join`, slicing)
defined explicitly over the character list (`String.data`), since a
Python `str` is a sequence of code points.

Library calls whose behaviour depends on the uploaded bytes
(`content.decode("utf-8")`, `Document(...).paragraphs`,
`PyPDF2.PdfReader(...).pages` / `page.extract_text()`) are modelled as
oracle fields of `UploadFile` recording what each call would yield on
this file's content; the upstream HTTP exchange of `summarize_text` is
modelled by an `UpstreamOutcome` argument recording what
`session.post` / `response.json()` would yield.
-/

deriving instance DecidableEq for Except

/-- Result of a Python library call: a value, or a raised exception
carrying `str(e)`. -/
inductive ParseResult (α : Type) where
  | ok (val : α)
  | raise (msg : String)
  deriving DecidableEq, Repr

/-- Model of `fastapi.HTTPException(status_code=..., detail=...)`. -/
structure HTTPException where
  status_code : Nat
  detail : String
  deriving DecidableEq, Repr

/-- A Python exception in flight: either an `HTTPException` or any other
exception, represented by its `str(e)`. -/
inductive PyExn where
  | http (e : HTTPException)
  | other (msg : String)
  deriving DecidableEq, Repr

/-- Python `str(e)`: for a Starlette `HTTPException` this is
`f"{status_code}: {detail}"`; for other exceptions, their message. -/
def pyStrOfExn : PyExn → String
  | .http e => toString e.status_code ++ ": " ++ e.detail
  | .other m => m

/-- Python whitespace test used by `str.strip()`. -/
def isPySpace (c : Char) : Bool := c.isWhitespace

/-- Character-list version of Python `str.strip()`: drop whitespace from
both ends. -/
def stripChars (l : List Char) : List Char :=
  ((l.dropWhile isPySpace).reverse.dropWhile isPySpace).reverse

/-- Python `s.strip()`. -/
def pyStrip (s : String) : String := String.mk (stripChars s.data)

/-- Python `s.lower()` (character-wise lowering). -/
def pyLower (s : String) : String := String.mk (s.data.map Char.toLower)

/-- Python `s.endswith(suffix)`. -/
def pyEndsWith (s suf : String) : Bool := decide (suf.data <:+ s.data)

/-- Python `sep.join(xs)`. -/
def pyJoin (sep : String) : List String → String
  | [] => ""
  | [x] => x
  | x :: y :: xs => x ++ sep ++ pyJoin sep (y :: xs)

/-- An uploaded file: its declared filename and size, plus oracles for the
three parsing library calls the extractor can make on its bytes.
`decodeUtf8` is `content.decode("utf-8")`; `docxParagraphs` is the list of
`para.text` over `Document(io.BytesIO(content)).paragraphs`; `pdfPages` is
the per-page result of `page.extract_text()` over
`PyPDF2.PdfReader(io.BytesIO(content)).pages` (with `none` for a page
whose text cannot be extracted, i.e. `extract_text()` returned `None`). -/
structure UploadFile where
  filename : String
  size : Nat
  decodeUtf8 : ParseResult String
  docxParagraphs : ParseResult (List String)
  pdfPages : ParseResult (List (Option String))
  deriving DecidableEq, Repr

/-- Constant `max_pages = 50` in `extract_text_from_file`. -/
def MAX_PDF_PAGES : Nat := 50

/-- Embedding of `extract_text_from_file` (src/main.py lines 39-75): dispatch on the
lowercased filename's suffix; `.txt` decodes UTF-8, `.docx` joins the
non-blank paragraphs with newlines, `.pdf` concatenates the text of the
first 50 pages (`extracted or ""` per page), any other suffix raises
`HTTPException(400)`. The whole dispatch sits in a `try:` whose
`except Exception as e:` re-raises `HTTPException(500, "Gagal
mengekstrak teks dari file: " + str(e))` — and since `HTTPException`
subclasses `Exception`, this catches the 400 raised for an unsupported
extension as well. -/
def extract_text_from_file (file : UploadFile) : Except HTTPException String :=
  let filename := pyLower file.filename
  let body : Except PyExn String :=
    if pyEndsWith filename ".txt" then
      match file.decodeUtf8 with
      | .ok text => .ok text
      | .raise m => .error (.other m)
    else if pyEndsWith filename ".docx" then
      match file.docxParagraphs with
      | .ok paras =>
          .ok (pyJoin "\n" (paras.filter (fun para => pyStrip para != "")))
      | .raise m => .error (.other m)
    else if pyEndsWith filename ".pdf" then
      match file.pdfPages with
      | .ok pages =>
          .ok ((pages.take MAX_PDF_PAGES).foldl
                (fun text extracted => text ++ extracted.getD "") "")
      | .raise m => .error (.other m)
    else
      .error (.http ⟨400, "Tipe file tidak didukung. Gunakan .txt, .docx, atau .pdf."⟩)
  match body with
  | .ok text => .ok text
  | .error e => .error ⟨500, "Gagal mengekstrak teks dari file: " ++ pyStrOfExn e⟩

/-- One entry of the `messages` array of the upstream payload. -/
structure Message where
  role : String
  content : String
  deriving DecidableEq, Repr

/-- The JSON payload `summarize_text` sends to OpenRouter. -/
structure Payload where
  model : String
  messages : List Message
  temperature : Rat
  max_tokens : Nat
  deriving DecidableEq, Repr

/-- Constant `MAX_INPUT_LENGTH = 5000` in `summarize_text`. -/
def MAX_INPUT_LENGTH : Nat := 5000

/-- The fixed system message content of the payload. -/
def systemContent : String :=
  "Kamu adalah asisten AI yang membuat ringkasan singkat dan akurat dari teks yang diberikan. Fokus pada poin utama dan hindari detail yang tidak relevan."

/-- The fixed scaffolding prepended to the (possibly truncated) input
text to form the user message. -/
def promptHeader : String :=
  "Buat ringkasan singkat dan jelas dari teks berikut. Fokus pada poin-poin utama dan hindari detail yang tidak relevan:\n\n"

/-- The truncation step of `summarize_text` (lines 85-88):
`input_text[:5000]` when the input is longer than 5000 characters. -/
def truncated_input (input_text : String) : String :=
  if input_text.data.length > MAX_INPUT_LENGTH then
    String.mk (input_text.data.take MAX_INPUT_LENGTH)
  else input_text

/-- The payload built by `summarize_text` (lines 90-103), after the
truncation step. -/
def summarize_payload (input_text : String) : Payload :=
  let prompt := promptHeader ++ truncated_input input_text
  { model := "meta-llama/llama-3.1-8b-instruct:free"
    messages := [⟨"system", systemContent⟩, ⟨"user", prompt⟩]
    temperature := 7 / 10
    max_tokens := 500 }

/-- Outcome of the upstream HTTP exchange: a response with its status and
the parsed body's `choices` (each choice abstracted to its
`message.content` string; `none` when the `"choices"` key is absent), or
one of the three exception classes `summarize_text` catches specifically. -/
inductive UpstreamOutcome where
  | response (status : Nat) (choices : Option (List String))
  | connectionError (msg : String)
  | responseError (msg : String)
  | timedOut
  deriving DecidableEq, Repr

/-- Detail of the `HTTPException(500)` raised on a 200 response with
missing or empty `choices` (line 119). -/
def missingChoicesDetail : String :=
  "API tidak mengembalikan konten. Kemungkinan teks terlalu panjang atau model gagal memproses."

/-- Embedding of `summarize_text` (src/main.py lines 77-134): truncate, build the
payload, post it, and handle the response. A non-200 status raises
`HTTPException(500, f"Gagal menghubungi API: {status}")`; a 200 with
missing or empty `choices` raises `HTTPException(500, missingChoicesDetail)`;
otherwise the first choice's content is returned stripped. Both raises
happen inside the `try:`, so the trailing `except Exception as e:`
re-wraps them as `HTTPException(500, "Gagal meringkas teks: " + str(e))`.
The three aiohttp/asyncio exception classes are caught by their own
`except` clauses, whose raises are not re-wrapped. -/
def summarize_text (input_text : String) (outcome : UpstreamOutcome) :
    Except HTTPException String :=
  let _payload := summarize_payload input_text
  match outcome with
  | .connectionError _ =>
      .error ⟨500, "Gagal menghubungi OpenRouter: Koneksi gagal."⟩
  | .responseError m =>
      .error ⟨500, "Gagal menghubungi OpenRouter: " ++ m⟩
  | .timedOut =>
      .error ⟨500, "Permintaan ke OpenRouter timeout setelah 60 detik."⟩
  | .response status choices =>
      let body : Except PyExn String :=
        if status ≠ 200 then
          .error (.http ⟨500, "Gagal menghubungi API: " ++ toString status⟩)
        else
          match choices with
          | none => .error (.http ⟨500, missingChoicesDetail⟩)
          | some [] => .error (.http ⟨500, missingChoicesDetail⟩)
          | some (c :: _) => .ok (pyStrip c)
      match body with
      | .ok summary => .ok summary
      | .error e => .error ⟨500, "Gagal meringkas teks: " ++ pyStrOfExn e⟩

/-- The success body `{"success": True, "data": {"text": summary}}`. -/
structure Envelope where
  success : Bool
  text : String
  deriving DecidableEq, Repr

/-- Result of one run of the `/summarize` handler: the HTTP response
(success envelope or `HTTPException`), the text forwarded to
`summarize_text` when it was called, and call counters for the upstream
exchange and for `extract_text_from_file`. -/
structure HandlerResult where
  response : Except HTTPException Envelope
  forwardedText : Option String
  upstreamCalls : Nat
  extractionCalls : Nat
  deriving DecidableEq, Repr

/-- Python truthiness of the `Optional[str]` form field `prompt`:
falsy when absent or the empty string. -/
def pyTruthyOpt : Option String → Bool
  | none => false
  | some s => s != ""

/-- The tail of the handler (src/main.py lines 162-172), common to both
input sources: reject if `input_text` is falsy (400), otherwise call
`summarize_text` inside a `try:` whose `except Exception as e:`
re-raises `HTTPException(500, str(e))`; on success respond with the
success envelope. `extractionCalls` records how many extraction calls
happened before reaching this point. -/
def afterExtract (input_text : String) (outcome : UpstreamOutcome)
    (extractionCalls : Nat) : HandlerResult :=
  if input_text == "" then
    ⟨.error ⟨400, "Teks yang diekstrak kosong atau tidak valid."⟩,
     none, 0, extractionCalls⟩
  else
    match summarize_text input_text outcome with
    | .ok summary => ⟨.ok ⟨true, summary⟩, some input_text, 1, extractionCalls⟩
    | .error e =>
        ⟨.error ⟨500, pyStrOfExn (.http e)⟩, some input_text, 1, extractionCalls⟩

/-- The `summarize` endpoint handler (src/main.py lines 136-172).
Checks, in order: neither prompt nor file → 400; file larger than 5 MiB
→ 400; obtain the text (`if file: ... elif prompt: input_text =
prompt.strip()`); then the common tail `afterExtract`. The extraction
call is outside the final `try:`, so its `HTTPException` propagates
unchanged. -/
def summarize (prompt : Option String) (file : Option UploadFile)
    (outcome : UpstreamOutcome) : HandlerResult :=
  if !(pyTruthyOpt prompt) && file.isNone then
    ⟨.error ⟨400, "Tidak ada teks atau file yang diunggah."⟩, none, 0, 0⟩
  else
    match file with
    | some f =>
        if f.size > 5 * 1024 * 1024 then
          ⟨.error ⟨400, "Ukuran file terlalu besar. Maksimum 5MB."⟩, none, 0, 0⟩
        else
          match extract_text_from_file f with
          | .error e => ⟨.error e, none, 0, 1⟩
          | .ok input_text => afterExtract input_text outcome 1
    | none =>
        afterExtract (if pyTruthyOpt prompt then pyStrip (prompt.getD "") else "")
          outcome 0

/-! ### Helper lemmas -/

theorem all_of_dropWhile_all {α : Type} {p : α → Bool} {l : List α}
    (h : ∀ x ∈ l.dropWhile p, p x = true) : ∀ x ∈ l, p x = true := by
  intro x hx
  rw [← List.takeWhile_append_dropWhile p l] at hx
  rcases List.mem_append.1 hx with h1 | h2
  · exact List.mem_takeWhile_imp h1
  · exact h x h2

theorem stripChars_eq_nil_iff (l : List Char) :
    stripChars l = [] ↔ ∀ c ∈ l, isPySpace c = true := by
  unfold stripChars
  rw [List.reverse_eq_nil_iff, List.dropWhile_eq_nil_iff]
  constructor
  · intro h
    refine all_of_dropWhile_all (fun x hx => ?_)
    exact h x (List.mem_reverse.2 hx)
  · intro h x hx
    exact h x ((List.dropWhile_sublist isPySpace).subset (List.mem_reverse.1 hx))

theorem pyStrip_eq_empty_iff (s : String) :
    pyStrip s = "" ↔ ∀ c ∈ s.data, isPySpace c = true := by
  rw [pyStrip, String.ext_iff]
  exact stripChars_eq_nil_iff s.data

theorem pyStrip_bne_empty (s : String) :
    (pyStrip s != "") = s.data.any (fun c => !(isPySpace c)) := by
  have hiff : pyStrip s = "" ↔ s.data.all isPySpace = true := by
    rw [pyStrip_eq_empty_iff, List.all_eq_true]
  rw [← List.not_all_eq_any_not]
  cases hall : s.data.all isPySpace with
  | false =>
      have hne : ¬ pyStrip s = "" := fun he => by
        rw [hiff, hall] at he
        cases he
      simp [bne_iff_ne, hne]
  | true =>
      have he : pyStrip s = "" := hiff.2 hall
      simp [he]

theorem getLast?_eq_of_suffix {α : Type} {l₂ l : List α} {c : α}
    (h : l₂ <:+ l) (hc : l₂.getLast? = some c) : l.getLast? = some c := by
  obtain ⟨t, rfl⟩ := h
  rw [List.getLast?_append, hc]
  rfl

theorem endsWith_last {s suf : String} {c : Char}
    (h : pyEndsWith s suf = true) (hc : suf.data.getLast? = some c) :
    s.data.getLast? = some c :=
  getLast?_eq_of_suffix (of_decide_eq_true h) hc

theorem pyEndsWith_false_of_last (suf : String) (d : Char) {s : String} {c : Char}
    (h : s.data.getLast? = some c) (hsuf : suf.data.getLast? = some d)
    (hcc : c ≠ d) : pyEndsWith s suf = false := by
  cases hx : pyEndsWith s suf with
  | false => rfl
  | true =>
      have h2 := endsWith_last hx hsuf
      rw [h] at h2
      exact absurd (Option.some.inj h2) hcc

theorem foldl_append_data (ss : List String) (a : String) :
    (ss.foldl (fun x y => x ++ y) a).data = a.data ++ (ss.map String.data).flatten := by
  induction ss generalizing a with
  | nil => simp
  | cons s ss ih =>
      simp only [List.foldl_cons, ih, String.data_append, List.map_cons, List.flatten_cons,
        List.append_assoc]

theorem pdf_fold_data (pages : List (Option String)) :
    (pages.foldl (fun text extracted => text ++ extracted.getD "") "").data
      = (pages.map (fun o => (o.getD "").data)).flatten := by
  have h1 : pages.foldl (fun text extracted => text ++ extracted.getD "") ""
      = (pages.map (fun o => o.getD "")).foldl (fun x y => x ++ y) "" := by
    rw [List.foldl_map]
  rw [h1, foldl_append_data, List.map_map]
  rfl

theorem afterExtract_forwarded_nonempty (s : String) (o : UpstreamOutcome) (ec : Nat)
    {t : String} (h : (afterExtract s o ec).forwardedText = some t) : t ≠ "" := by
  unfold afterExtract at h
  split at h
  · simp at h
  · rename_i hne
    split at h <;>
    · injection h with h2
      subst h2
      intro hc
      exact hne (by rw [hc]; rfl)

theorem afterExtract_empty (o : UpstreamOutcome) (ec : Nat) :
    afterExtract "" o ec =
      ⟨.error ⟨400, "Teks yang diekstrak kosong atau tidak valid."⟩, none, 0, ec⟩ := rfl

theorem afterExtract_extractionCalls (s : String) (o : UpstreamOutcome) (ec : Nat) :
    (afterExtract s o ec).extractionCalls = ec := by
  unfold afterExtract
  split
  · rfl
  · split <;> rfl

/-! ### Sanity checks -/

example :
    extract_text_from_file ⟨"a.docx", 3, .raise "x", .ok ["Hi", "  ", "Yo"], .raise "x"⟩ =
      .ok "Hi\nYo" := by decide

example :
    extract_text_from_file ⟨"b.pdf", 3, .raise "x", .raise "x", .ok [some "ab", none, some "c"]⟩ =
      .ok "abc" := by decide

example :
    extract_text_from_file ⟨"c.png", 3, .raise "x", .raise "x", .raise "x"⟩ =
      .error ⟨500, "Gagal mengekstrak teks dari file: 400: Tipe file tidak didukung. Gunakan .txt, .docx, atau .pdf."⟩ := by
  decide

example : summarize_text "t" (.response 200 (some ["  Hello  "])) = .ok "Hello" := by
  decide

example : summarize_text "t" (.response 503 none) =
    .error ⟨500, "Gagal meringkas teks: 500: Gagal menghubungi API: 503"⟩ := by
  decide

/-! ### Claim theorems -/

/-- A file with an unsupported extension; its parse oracles are never
consulted by the extractor. -/
def unsupportedFile : UploadFile :=
  ⟨"image.png", 10, .raise "boom", .raise "boom", .raise "boom"⟩

/-- C1: the claim states that an unsupported extension yields a
RejectedInput (4xx) error and never a 5xx. On the code this is false:
the `raise HTTPException(400, ...)` for an unsupported extension sits
inside the `try:` block, whose `except Exception` clause catches it
(`HTTPException` subclasses `Exception`) and re-raises
`HTTPException(500, "Gagal mengekstrak teks dari file: " + str(e))`.
So a `.png` upload is answered with status 500, not 400. -/
theorem C1_unsupported_extension_wrapped_to_500 :
    extract_text_from_file unsupportedFile =
      .error ⟨500, "Gagal mengekstrak teks dari file: 400: Tipe file tidak didukung. Gunakan .txt, .docx, atau .pdf."⟩ ∧
    ∀ e, extract_text_from_file unsupportedFile = Except.error e →
      ¬(400 ≤ e.status_code ∧ e.status_code < 500) := by
  refine ⟨by decide, fun e he => ?_⟩
  have h1 : e = (⟨500, "Gagal mengekstrak teks dari file: 400: Tipe file tidak didukung. Gunakan .txt, .docx, atau .pdf."⟩ : HTTPException) := by
    have h2 : extract_text_from_file unsupportedFile =
        .error ⟨500, "Gagal mengekstrak teks dari file: 400: Tipe file tidak didukung. Gunakan .txt, .docx, atau .pdf."⟩ := by
      decide
    rw [h2] at he
    exact (Except.error.inj he).symm
  rw [h1]
  decide

/-- C2: for a `.pdf` input whose pages parse to `pages` (each entry the
result of `page.extract_text()`, `none` when the text cannot be
extracted), extraction succeeds — even with more than 50 pages — and the
returned string is the character-level concatenation, in page order and
with no separator, of the text of at most the first 50 pages, an
unextractable page contributing the empty string. -/
theorem C2_pdf_first_50_pages_concatenated (f : UploadFile) (pages : List (Option String))
    (hname : pyEndsWith (pyLower f.filename) ".pdf" = true)
    (hpages : f.pdfPages = .ok pages) :
    extract_text_from_file f =
      .ok (String.mk (((pages.take 50).map (fun o => (o.getD "").data)).flatten)) := by
  have hlast : (pyLower f.filename).data.getLast? = some 'f' :=
    endsWith_last hname (by decide)
  have htxt : pyEndsWith (pyLower f.filename) ".txt" = false :=
    pyEndsWith_false_of_last ".txt" 't' hlast (by decide) (by decide)
  have hdocx : pyEndsWith (pyLower f.filename) ".docx" = false :=
    pyEndsWith_false_of_last ".docx" 'x' hlast (by decide) (by decide)
  have hfold : (pages.take MAX_PDF_PAGES).foldl
      (fun text extracted => text ++ extracted.getD "") "" =
      String.mk (((pages.take 50).map (fun o => (o.getD "").data)).flatten) := by
    apply String.ext
    rw [pdf_fold_data]
    rfl
  simp [extract_text_from_file, htxt, hdocx, hname, hpages, hfold]

/-- A 60-page PDF, every page extracting to `"a"`. -/
def pdfSixty : UploadFile :=
  ⟨"big.pdf", 9, .raise "boom", .raise "boom", .ok (List.replicate 60 (some "a"))⟩

theorem C2_pdf_witness :
    extract_text_from_file pdfSixty =
      .ok (String.mk ((((List.replicate 60 (some "a")).take 50).map
            (fun o => (o.getD "").data)).flatten)) ∧
    String.mk ((((List.replicate 60 (some "a") : List (Option String))).take 50).map
          (fun o => (o.getD "").data)).flatten = String.mk (List.replicate 50 'a') :=
  ⟨C2_pdf_first_50_pages_concatenated pdfSixty (List.replicate 60 (some "a"))
      (by decide) rfl,
   by decide⟩

/-- C3: for a `.docx` input whose paragraphs parse to `paras`, extraction
returns exactly the paragraphs containing at least one non-whitespace
character, in document order, joined by newlines; blank paragraphs are
dropped entirely. -/
theorem C3_docx_nonblank_paragraphs_joined (f : UploadFile) (paras : List String)
    (hname : pyEndsWith (pyLower f.filename) ".docx" = true)
    (hparas : f.docxParagraphs = .ok paras) :
    extract_text_from_file f =
      .ok (pyJoin "\n" (paras.filter (fun p => p.data.any (fun c => !(isPySpace c))))) := by
  have hlast : (pyLower f.filename).data.getLast? = some 'x' :=
    endsWith_last hname (by decide)
  have htxt : pyEndsWith (pyLower f.filename) ".txt" = false :=
    pyEndsWith_false_of_last ".txt" 't' hlast (by decide) (by decide)
  have hfilter : paras.filter (fun para => pyStrip para != "") =
      paras.filter (fun p => p.data.any (fun c => !(isPySpace c))) :=
    List.filter_congr (fun a _ => pyStrip_bne_empty a)
  simp [extract_text_from_file, htxt, hname, hparas, hfilter]

/-- C4: the text embedded in the payload's user message is the input
truncated to its first 5,000 characters (the input itself when its
length is at most 5,000), truncation happens before the prompt is
built (the user message is the fixed scaffolding followed by the
truncated text), and the user message's length is at most the
scaffolding's length plus 5,000. -/
theorem C4_truncation_before_prompt (s : String) :
    (summarize_payload s).messages =
      [⟨"system", systemContent⟩, ⟨"user", promptHeader ++ truncated_input s⟩] ∧
    (truncated_input s).data = s.data.take 5000 ∧
    (s.data.length ≤ 5000 → truncated_input s = s) ∧
    (promptHeader ++ truncated_input s).data.length ≤ promptHeader.data.length + 5000 := by
  have htr : (truncated_input s).data = s.data.take 5000 := by
    unfold truncated_input MAX_INPUT_LENGTH
    split
    · rfl
    · next h => rw [List.take_of_length_le (Nat.le_of_not_lt h)]
  refine ⟨rfl, htr, ?_, ?_⟩
  · intro h
    unfold truncated_input MAX_INPUT_LENGTH
    split
    · next hgt => exact absurd hgt (Nat.not_lt.2 h)
    · rfl
  · rw [String.data_append, List.length_append]
    refine Nat.add_le_add_left ?_ _
    rw [htr, List.length_take]
    exact Nat.min_le_left _ _

theorem C4_truncation_witness :
    truncated_input "abc" = "abc" ∧
    (summarize_payload "abc").messages =
      [⟨"system", systemContent⟩, ⟨"user", promptHeader ++ truncated_input "abc"⟩] :=
  ⟨(C4_truncation_before_prompt "abc").2.2.1 (by decide),
   (C4_truncation_before_prompt "abc").1⟩

/-- C5: on an upstream 200 response with a non-empty choices list,
`summarize_text` returns the first choice's message content with
surrounding whitespace stripped; in particular a first choice of
"  Hello  " yields "Hello". -/
theorem C5_success_first_choice_stripped (t c : String) (rest : List String) :
    summarize_text t (.response 200 (some (c :: rest))) = .ok (pyStrip c) ∧
    summarize_text t (.response 200 (some ["  Hello  "])) = .ok "Hello" := by
  constructor
  · rfl
  · show Except.ok (pyStrip "  Hello  ") = Except.ok "Hello"
    decide

/-- Helper: fold the closed string constants of the re-wrapped upstream
error detail into one literal. -/
theorem detail_concat (x : String) :
    "Gagal meringkas teks: " ++ (toString (500 : Nat) ++ ": " ++ ("Gagal menghubungi API: " ++ x))
      = "Gagal meringkas teks: 500: Gagal menghubungi API: " ++ x := by
  rw [← String.append_assoc, ← String.append_assoc]
  have h : "Gagal meringkas teks: " ++ (toString (500 : Nat) ++ ": ") ++ "Gagal menghubungi API: "
      = "Gagal meringkas teks: 500: Gagal menghubungi API: " := by decide
  rw [h]

/-- C6: a non-200 upstream status yields an error response with HTTP
status 500 (a 5xx) whose detail carries the upstream status code, and a
200 status with a missing or empty choices list yields the
malformed-response error, also surfaced with HTTP status 500. (Both
raises are re-wrapped by the blanket `except Exception`, which prefixes
"Gagal meringkas teks: 500: " but preserves the status code and the
detail text.) -/
theorem C6_upstream_errors_surfaced_as_500 (t : String) (status : Nat)
    (choices : Option (List String)) :
    (status ≠ 200 →
      summarize_text t (.response status choices) =
        .error ⟨500, "Gagal meringkas teks: 500: Gagal menghubungi API: " ++ toString status⟩) ∧
    summarize_text t (.response 200 none) =
      .error ⟨500, "Gagal meringkas teks: 500: " ++ missingChoicesDetail⟩ ∧
    summarize_text t (.response 200 (some [])) =
      .error ⟨500, "Gagal meringkas teks: 500: " ++ missingChoicesDetail⟩ := by
  refine ⟨fun h => ?_, ?_, ?_⟩
  · simp [summarize_text, h, pyStrOfExn, detail_concat]
  · show Except.error (⟨500, "Gagal meringkas teks: " ++ pyStrOfExn (.http ⟨500, missingChoicesDetail⟩)⟩ : HTTPException) =
        Except.error (⟨500, "Gagal meringkas teks: 500: " ++ missingChoicesDetail⟩ : HTTPException)
    decide
  · show Except.error (⟨500, "Gagal meringkas teks: " ++ pyStrOfExn (.http ⟨500, missingChoicesDetail⟩)⟩ : HTTPException) =
        Except.error (⟨500, "Gagal meringkas teks: 500: " ++ missingChoicesDetail⟩ : HTTPException)
    decide

theorem C6_upstream_witness :
    summarize_text "t" (.response 503 (some ["x"])) =
      .error ⟨500, "Gagal meringkas teks: 500: Gagal menghubungi API: " ++ toString (503 : Nat)⟩ :=
  (C6_upstream_errors_surfaced_as_500 "t" 503 (some ["x"])).1 (by decide)

theorem C3_docx_witness :
    extract_text_from_file ⟨"Report.DOCX", 4, .raise "boom", .ok ["Hello", "   ", "World"], .raise "boom"⟩ =
      .ok (pyJoin "\n" ((["Hello", "   ", "World"] : List String).filter
            (fun p => p.data.any (fun c => !(isPySpace c))))) ∧
    pyJoin "\n" ((["Hello", "   ", "World"] : List String).filter
        (fun p => p.data.any (fun c => !(isPySpace c)))) = "Hello\nWorld" :=
  ⟨C3_docx_nonblank_paragraphs_joined _ ["Hello", "   ", "World"] (by decide) rfl,
   by decide⟩

/-- C7: a request supplying neither a prompt nor a file is answered with
the RejectedInput 400 error, with no upstream call and no extraction
attempted. -/
theorem C7_no_input_rejected_without_upstream (o : UpstreamOutcome) :
    summarize none none o =
      ⟨.error ⟨400, "Tidak ada teks atau file yang diunggah."⟩, none, 0, 0⟩ := rfl

/-- C8: a request carrying a file larger than 5 MiB is answered with the
RejectedInput 400 error, with no extraction (and no upstream call)
attempted: the size check precedes the call to
`extract_text_from_file`. -/
theorem C8_oversized_file_rejected_before_extraction (p : Option String)
    (f : UploadFile) (o : UpstreamOutcome) (h : f.size > 5 * 1024 * 1024) :
    summarize p (some f) o =
      ⟨.error ⟨400, "Ukuran file terlalu besar. Maksimum 5MB."⟩, none, 0, 0⟩ := by
  unfold summarize
  simp [h]

/-- A file one byte over the 5 MiB limit. -/
def bigFile : UploadFile :=
  ⟨"big.txt", 5 * 1024 * 1024 + 1, .ok "hi", .raise "boom", .raise "boom"⟩

theorem C8_oversized_witness :
    summarize (some "p") (some bigFile) .timedOut =
      ⟨.error ⟨400, "Ukuran file terlalu besar. Maksimum 5MB."⟩, none, 0, 0⟩ :=
  C8_oversized_file_rejected_before_extraction (some "p") bigFile .timedOut (by decide)

/-- C9: whenever the handler forwards text to the summarization client,
that text is non-empty; and when the obtained text is empty — the file
extracted to the empty string, or (with no file) the trimmed prompt is
empty — the handler answers with a 400 RejectedInput error and performs
no upstream call. -/
theorem C9_forwarded_text_nonempty (p : Option String) (f : Option UploadFile)
    (o : UpstreamOutcome) :
    (∀ t, (summarize p f o).forwardedText = some t → t ≠ "") ∧
    (∀ fl, f = some fl → extract_text_from_file fl = .ok "" →
      ∃ e, (summarize p f o).response = .error e ∧ e.status_code = 400 ∧
        (summarize p f o).upstreamCalls = 0) ∧
    (f = none → pyStrip (p.getD "") = "" →
      ∃ e, (summarize p f o).response = .error e ∧ e.status_code = 400 ∧
        (summarize p f o).upstreamCalls = 0) := by
  refine ⟨?_, ?_, ?_⟩
  · intro t h
    unfold summarize at h
    split at h
    · simp at h
    · split at h
      · rename_i fl
        split at h
        · simp at h
        · split at h
          · simp at h
          · exact afterExtract_forwarded_nonempty _ _ _ h
      · exact afterExtract_forwarded_nonempty _ _ _ h
  · rintro fl rfl hex
    by_cases hsz : fl.size > 5 * 1024 * 1024
    · have hr : summarize p (some fl) o =
          ⟨.error ⟨400, "Ukuran file terlalu besar. Maksimum 5MB."⟩, none, 0, 0⟩ := by
        unfold summarize
        simp [hsz]
      rw [hr]
      exact ⟨⟨400, "Ukuran file terlalu besar. Maksimum 5MB."⟩, rfl, rfl, rfl⟩
    · have hr : summarize p (some fl) o = afterExtract "" o 1 := by
        unfold summarize
        simp [hsz, hex]
      rw [hr, afterExtract_empty]
      exact ⟨⟨400, "Teks yang diekstrak kosong atau tidak valid."⟩, rfl, rfl, rfl⟩
  · rintro rfl hp
    cases p with
    | none =>
        exact ⟨⟨400, "Tidak ada teks atau file yang diunggah."⟩, rfl, rfl, rfl⟩
    | some s =>
        by_cases hs : s = ""
        · subst hs
          exact ⟨⟨400, "Tidak ada teks atau file yang diunggah."⟩, rfl, rfl, rfl⟩
        · have htr : pyTruthyOpt (some s) = true := by
            simp [pyTruthyOpt, hs]
          have hp2 : pyStrip s = "" := hp
          have hr : summarize (some s) none o = afterExtract "" o 0 := by
            unfold summarize
            simp [htr, hp2]
          rw [hr, afterExtract_empty]
          exact ⟨⟨400, "Teks yang diekstrak kosong atau tidak valid."⟩, rfl, rfl, rfl⟩

theorem C9_empty_prompt_witness :
    ∃ e, (summarize (some "   ") none .timedOut).response = .error e ∧
      e.status_code = 400 ∧ (summarize (some "   ") none .timedOut).upstreamCalls = 0 :=
  (C9_forwarded_text_nonempty (some "   ") none .timedOut).2.2 rfl (by decide)

/-- C10: when both a non-empty prompt and a file are supplied, the file
alone determines the outcome — the handler's result is the same as if no
prompt had been sent (the prompt is neither concatenated nor a fallback,
and the request is not rejected for supplying both) — and, when the file
passes the size check, extraction is invoked exactly once. -/
theorem C10_file_takes_precedence_over_prompt (s : String) (fl : UploadFile)
    (o : UpstreamOutcome) :
    summarize (some s) (some fl) o = summarize none (some fl) o ∧
    (fl.size ≤ 5 * 1024 * 1024 →
      (summarize (some s) (some fl) o).extractionCalls = 1) := by
  constructor
  · unfold summarize
    simp
  · intro h
    have hsz : ¬ fl.size > 5 * 1024 * 1024 := Nat.not_lt.2 h
    unfold summarize
    rcases hex : extract_text_from_file fl with e | it
    · simp [hsz, hex]
    · simp [hsz, hex, afterExtract_extractionCalls]

/-- A small, valid .txt file. -/
def smallTxtFile : UploadFile :=
  ⟨"note.txt", 5, .ok "hello", .raise "boom", .raise "boom"⟩

theorem C10_precedence_witness :
    (summarize (some "hi") (some smallTxtFile) .timedOut =
      summarize none (some smallTxtFile) .timedOut) ∧
    (summarize (some "hi") (some smallTxtFile) .timedOut).extractionCalls = 1 :=
  ⟨(C10_file_takes_precedence_over_prompt "hi" smallTxtFile .timedOut).1,
   (C10_file_takes_precedence_over_prompt "hi" smallTxtFile .timedOut).2 (by decide)⟩
